import Mathlib

/-!
Shallow embedding of the pmsx003-rs driver (src/src/lib.rs): frame codec
(command encoding, output-frame decoding with additive checksum) and the
sensor protocol engine (magic-marker resynchronization over a byte stream,
command/response exchanges). Bytes are modelled as `Nat` values below 256;
16-bit wire words as `Nat` values below 65536, with `% 65536` wherever the
Rust code computes in `u16`.
-/

namespace Pms

/-- First magic byte `MN1 = 0x42` (src/src/lib.rs line 12). -/
def MN1 : Nat := 0x42

/-- Second magic byte `MN2 = 0x4D` (src/src/lib.rs line 13). -/
def MN2 : Nat := 0x4D

/-- `OUTPUT_FRAME_SIZE` (src/src/lib.rs line 6). -/
def OUTPUT_FRAME_SIZE : Nat := 32

/-- `RESPONSE_FRAME_SIZE` (src/src/lib.rs line 7). -/
def RESPONSE_FRAME_SIZE : Nat := 8

/-- `CHECKSUM_SIZE` (src/src/lib.rs line 8). -/
def CHECKSUM_SIZE : Nat := 2

/-- `PASSIVE_MODE_RESPONSE` exactly as the source writes it
(src/src/lib.rs line 14): `[MN1, MN1, 0x00, 0x04, 0xE1, 0x00, 0x01, 0x74]`.
Note the second element is `MN1`, not `MN2`. -/
def PASSIVE_MODE_RESPONSE : List Nat := [MN1, MN1, 0x00, 0x04, 0xE1, 0x00, 0x01, 0x74]

/-- `ACTIVE_MODE_RESPONSE` (src/src/lib.rs line 15). -/
def ACTIVE_MODE_RESPONSE : List Nat := [MN1, MN2, 0x00, 0x04, 0xE1, 0x01, 0x01, 0x75]

/-- `SLEEP_RESPONSE` (src/src/lib.rs line 16). -/
def SLEEP_RESPONSE : List Nat := [MN1, MN2, 0x00, 0x04, 0xE4, 0x00, 0x01, 0x77]

/-- `embedded_io::ReadExactError<E>`: either end of stream before the buffer
was filled, or an underlying transport error. -/
inductive ReadExactError (E : Type) where
  | UnexpectedEof
  | Other (e : E)
deriving DecidableEq

/-- The driver error type `Error<E>` (src/src/lib.rs lines 18-25). -/
inductive Error (E : Type) where
  | Read (e : ReadExactError E)
  | Write (e : E)
  | ChecksumError
  | IncorrectResponse
  | NoResponse
deriving DecidableEq

/-- Big-endian 16-bit read `u16::from_be_bytes([a, b])` of two bytes. -/
def be16 (a b : Nat) : Nat := 256 * a + b

/-- `u16::to_be_bytes`: the high byte of a 16-bit value. -/
def beHigh (d : Nat) : Nat := (d / 256) % 256

/-- `u16::to_be_bytes`: the low byte of a 16-bit value. -/
def beLow (d : Nat) : Nat := d % 256

/-- `create_command` (src/src/lib.rs lines 129-158): builds the 7-byte
command frame `[MN1, MN2, cmd, data_hi, data_lo, cks_hi, cks_lo]` where the
checksum is the `u16` sum of the first five bytes. -/
def create_command (cmd data : Nat) : List Nat :=
  let hi := beHigh data
  let lo := beLow data
  let checksum := (MN1 + MN2 + cmd + hi + lo) % 65536
  [MN1, MN2, cmd, hi, lo, beHigh checksum, beLow checksum]

/-- The decoded measurement record `OutputFrame`
(src/src/lib.rs lines 161-180), fields in wire order. -/
structure OutputFrame where
  start1 : Nat
  start2 : Nat
  frame_length : Nat
  pm1_0 : Nat
  pm2_5 : Nat
  pm10 : Nat
  pm1_0_atm : Nat
  pm2_5_atm : Nat
  pm10_atm : Nat
  beyond_0_3 : Nat
  beyond_0_5 : Nat
  beyond_1_0 : Nat
  beyond_2_5 : Nat
  beyond_5_0 : Nat
  beyond_10_0 : Nat
  reserved : Nat
  check : Nat
deriving DecidableEq

/-- Byte `i` of a buffer (the Rust buffers are fixed-size arrays; out-of-range
indices cannot occur at the call sites, `0` is a don't-care default). -/
def byteAt (buffer : List Nat) (i : Nat) : Nat := buffer.getD i 0

/-- The frame record populated field by field from the buffer, exactly as the
assignment sequence in `OutputFrame::from_buffer` (src/src/lib.rs lines
190-228): bytes 0 and 1 raw, then fifteen big-endian 16-bit reads. -/
def decodeFields (buffer : List Nat) : OutputFrame :=
  ⟨byteAt buffer 0, byteAt buffer 1,
   be16 (byteAt buffer 2) (byteAt buffer 3),
   be16 (byteAt buffer 4) (byteAt buffer 5),
   be16 (byteAt buffer 6) (byteAt buffer 7),
   be16 (byteAt buffer 8) (byteAt buffer 9),
   be16 (byteAt buffer 10) (byteAt buffer 11),
   be16 (byteAt buffer 12) (byteAt buffer 13),
   be16 (byteAt buffer 14) (byteAt buffer 15),
   be16 (byteAt buffer 16) (byteAt buffer 17),
   be16 (byteAt buffer 18) (byteAt buffer 19),
   be16 (byteAt buffer 20) (byteAt buffer 21),
   be16 (byteAt buffer 22) (byteAt buffer 23),
   be16 (byteAt buffer 24) (byteAt buffer 25),
   be16 (byteAt buffer 26) (byteAt buffer 27),
   be16 (byteAt buffer 28) (byteAt buffer 29),
   be16 (byteAt buffer 30) (byteAt buffer 31)⟩

/-- `OutputFrame::from_buffer` (src/src/lib.rs lines 183-235): sum the first
30 bytes (each widened to `usize` before summing — the identity on `Nat`),
decode all fields, and fail with `ChecksumError` when the sum differs from
the decoded checksum field. -/
def from_buffer {E : Type} (buffer : List Nat) : Except (Error E) OutputFrame :=
  let sum := (buffer.take (OUTPUT_FRAME_SIZE - CHECKSUM_SIZE)).sum
  let frame := decodeFields buffer
  if sum ≠ frame.check then .error .ChecksumError else .ok frame

/-- `read_from_device` (src/src/lib.rs lines 42-79), with the UART receive
direction modelled as the list of bytes the transport will deliver, in order;
`read_exact` on an exhausted stream fails with `UnexpectedEof`. The scanner
reads single bytes until one equals `MN1`, reads the next byte, and on `MN2`
fills the rest of the `frameSize` buffer and returns it together with the
unconsumed tail of the stream; on any other second byte both bytes are
dropped and scanning resumes. Any read failure aborts with `Error.Read`. -/
def read_from_device {E : Type} (frameSize : Nat) : List Nat → Except (Error E) (List Nat × List Nat)
  | [] => .error (.Read .UnexpectedEof)
  | b :: rest =>
    if b = MN1 then
      match rest with
      | [] => .error (.Read .UnexpectedEof)
      | b2 :: rest2 =>
        if b2 = MN2 then
          if frameSize - 2 ≤ rest2.length then
            .ok (MN1 :: MN2 :: rest2.take (frameSize - 2), rest2.drop (frameSize - 2))
          else .error (.Read .UnexpectedEof)
        else read_from_device frameSize rest2
    else read_from_device frameSize rest

/-- Transport state an operation runs against: the pending receive bytes and
whether `write_all` fails (`some e`) or succeeds (`none`). -/
structure Uart (E : Type) where
  rx : List Nat
  writeErr : Option E

/-- `read` (src/src/lib.rs lines 82-84): resynchronize a 32-byte frame, then
decode it; the decoded frame is paired with the unread remainder of the
stream. -/
def read {E : Type} (rx : List Nat) : Except (Error E) (OutputFrame × List Nat) :=
  match read_from_device OUTPUT_FRAME_SIZE rx with
  | .error e => .error e
  | .ok (buf, rest) =>
    match from_buffer buf with
    | .error e => .error e
    | .ok frame => .ok (frame, rest)

/-- `send_cmd` (src/src/lib.rs lines 113-118): `write_all`, with any write
failure mapped to `NoResponse` ("Simplify for now"), the error value dropped. -/
def send_cmd {E : Type} (u : Uart E) (_cmd : List Nat) : Except (Error E) Unit :=
  match u.writeErr with
  | none => .ok ()
  | some _ => .error .NoResponse

/-- `receive_response` (src/src/lib.rs lines 120-126): resynchronize an
8-byte response and compare the whole buffer to the expected template. -/
def receive_response {E : Type} (expected rx : List Nat) : Except (Error E) Unit :=
  match read_from_device RESPONSE_FRAME_SIZE rx with
  | .error e => .error e
  | .ok (resp, _) => if resp ≠ expected then .error .IncorrectResponse else .ok ()

/-- `sleep` (src/src/lib.rs lines 87-90). -/
def sleep {E : Type} (u : Uart E) : Except (Error E) Unit :=
  match send_cmd u (create_command 0xE4 0) with
  | .error e => .error e
  | .ok _ => receive_response SLEEP_RESPONSE u.rx

/-- `wake` (src/src/lib.rs lines 92-94): sends the command only. -/
def wake {E : Type} (u : Uart E) : Except (Error E) Unit :=
  send_cmd u (create_command 0xE4 1)

/-- `passive` (src/src/lib.rs lines 97-100). -/
def passive {E : Type} (u : Uart E) : Except (Error E) Unit :=
  match send_cmd u (create_command 0xE1 0) with
  | .error e => .error e
  | .ok _ => receive_response PASSIVE_MODE_RESPONSE u.rx

/-- `active` (src/src/lib.rs lines 103-106). -/
def active {E : Type} (u : Uart E) : Except (Error E) Unit :=
  match send_cmd u (create_command 0xE1 1) with
  | .error e => .error e
  | .ok _ => receive_response ACTIVE_MODE_RESPONSE u.rx

/-- `request` (src/src/lib.rs lines 109-111). -/
def request {E : Type} (u : Uart E) : Except (Error E) Unit :=
  send_cmd u (create_command 0xE2 0)

deriving instance DecidableEq for Except

/-- Discriminator: did the computation return `Ok`? -/
def resultIsOk {E α : Type} : Except (Error E) α → Bool
  | .ok _ => true
  | .error _ => false

/-- Discriminator: did the computation fail with `Error.Write`? -/
def resultIsWriteErr {E α : Type} : Except (Error E) α → Bool
  | .error (.Write _) => true
  | _ => false

/-- Discriminator: did the computation fail with `Error.ChecksumError`? -/
def resultIsChecksumErr {E α : Type} : Except (Error E) α → Bool
  | .error .ChecksumError => true
  | _ => false

/-- A 32-byte wire frame with a valid checksum: magic pair, 28 zero body
bytes, checksum `0x008F = 0x42 + 0x4D`. -/
def validFrame : List Nat := 0x42 :: 0x4D :: (List.replicate 28 0 ++ [0x00, 0x8F])

/-- A copy of `validFrame` with one bit of the checksum flipped
(`0x8F` became `0x8E`). -/
def corruptFrame : List Nat := 0x42 :: 0x4D :: (List.replicate 28 0 ++ [0x00, 0x8E])

/-- A successful decode returns exactly the field-by-field decoding of the
buffer. -/
lemma from_buffer_ok_eq {E : Type} (buffer : List Nat) (f : OutputFrame)
    (h : @from_buffer E buffer = .ok f) : f = decodeFields buffer := by
  by_cases hc : (buffer.take (OUTPUT_FRAME_SIZE - CHECKSUM_SIZE)).sum ≠ (decodeFields buffer).check
  · rw [show @from_buffer E buffer = .error .ChecksumError from by
      unfold from_buffer; simp [hc]] at h
    exact absurd h (by simp)
  · rw [show @from_buffer E buffer = .ok (decodeFields buffer) from by
      unfold from_buffer; simp [hc]] at h
    injection h with h2
    exact h2.symm

/-- C4: for every command byte and 16-bit data value, `create_command`
returns exactly `[0x42, 0x4D, cmd, hi(data), lo(data), hi(cks), lo(cks)]`
where `cks` is the sum of the first five bytes; the function is total, so it
has no failure mode. -/
theorem create_command_spec (cmd data : Nat) (hc : cmd < 256) (hd : data < 65536) :
    create_command cmd data =
      [0x42, 0x4D, cmd, data / 256, data % 256,
       (0x42 + 0x4D + cmd + data / 256 + data % 256) / 256,
       (0x42 + 0x4D + cmd + data / 256 + data % 256) % 256] := by
  have h1 : data / 256 % 256 = data / 256 := by omega
  have hs : (0x42 + 0x4D + cmd + data / 256 + data % 256) % 65536
      = 0x42 + 0x4D + cmd + data / 256 + data % 256 := by omega
  have h2 : (0x42 + 0x4D + cmd + data / 256 + data % 256) / 256 % 256
      = (0x42 + 0x4D + cmd + data / 256 + data % 256) / 256 := by omega
  simp only [create_command, beHigh, beLow, MN1, MN2, h1, hs, h2]

/-- Witness for C4 at the request-status command (0xE2, data 0). -/
theorem create_command_spec_witness :
    ((0xE2 : Nat) < 256 ∧ (0 : Nat) < 65536) ∧
    create_command 0xE2 0 =
      [0x42, 0x4D, 0xE2, 0 / 256, 0 % 256,
       (0x42 + 0x4D + 0xE2 + 0 / 256 + 0 % 256) / 256,
       (0x42 + 0x4D + 0xE2 + 0 / 256 + 0 % 256) % 256] :=
  ⟨⟨by decide, by decide⟩, create_command_spec 0xE2 0 (by decide) (by decide)⟩

/-- C5 counterexample: encoding (cmd = 0xE1, data = 1) does not yield the
byte string `42 4D E1 00 01 01 70` named by the claim — the trailing
checksum bytes are `01 71`, not `01 70`. -/
theorem create_command_E1_1_counterexample :
    create_command 0xE1 1 ≠ [0x42, 0x4D, 0xE1, 0x00, 0x01, 0x01, 0x70] := by
  decide

/-- C5 (amended): encoding (cmd = 0xE1, data = 1) yields
`42 4D E1 00 01 01 71`, whose trailing big-endian checksum equals
`0x42 + 0x4D + 0xE1 + 0x00 + 0x01 = 0x171`; the encoder is a pure function,
hence deterministic. -/
theorem create_command_E1_1 :
    create_command 0xE1 1 = [0x42, 0x4D, 0xE1, 0x00, 0x01, 0x01, 0x71] ∧
    be16 0x01 0x71 = 0x42 + 0x4D + 0xE1 + 0x00 + 0x01 := by
  decide

/-- C2: on every 32-byte buffer whose first 30 bytes sum to the big-endian
16-bit value stored at bytes 30-31, `from_buffer` succeeds and every field
of the result is the big-endian interpretation of its designated wire
slice. -/
theorem from_buffer_valid_spec (E : Type) (buffer : List Nat)
    (_hlen : buffer.length = 32) (_hbytes : ∀ b ∈ buffer, b < 256)
    (hsum : (buffer.take 30).sum = be16 (byteAt buffer 30) (byteAt buffer 31)) :
    @from_buffer E buffer = .ok
      ⟨byteAt buffer 0, byteAt buffer 1,
       be16 (byteAt buffer 2) (byteAt buffer 3),
       be16 (byteAt buffer 4) (byteAt buffer 5),
       be16 (byteAt buffer 6) (byteAt buffer 7),
       be16 (byteAt buffer 8) (byteAt buffer 9),
       be16 (byteAt buffer 10) (byteAt buffer 11),
       be16 (byteAt buffer 12) (byteAt buffer 13),
       be16 (byteAt buffer 14) (byteAt buffer 15),
       be16 (byteAt buffer 16) (byteAt buffer 17),
       be16 (byteAt buffer 18) (byteAt buffer 19),
       be16 (byteAt buffer 20) (byteAt buffer 21),
       be16 (byteAt buffer 22) (byteAt buffer 23),
       be16 (byteAt buffer 24) (byteAt buffer 25),
       be16 (byteAt buffer 26) (byteAt buffer 27),
       be16 (byteAt buffer 28) (byteAt buffer 29),
       be16 (byteAt buffer 30) (byteAt buffer 31)⟩ := by
  have hch : (decodeFields buffer).check = be16 (byteAt buffer 30) (byteAt buffer 31) := rfl
  simp only [from_buffer, OUTPUT_FRAME_SIZE, CHECKSUM_SIZE, hch, hsum]
  simp [decodeFields]

/-- Witness for C2 on `validFrame`. -/
theorem from_buffer_valid_spec_witness :
    (validFrame.length = 32 ∧ (∀ b ∈ validFrame, b < 256) ∧
      (validFrame.take 30).sum = be16 (byteAt validFrame 30) (byteAt validFrame 31)) ∧
    @from_buffer Unit validFrame = .ok
      ⟨byteAt validFrame 0, byteAt validFrame 1,
       be16 (byteAt validFrame 2) (byteAt validFrame 3),
       be16 (byteAt validFrame 4) (byteAt validFrame 5),
       be16 (byteAt validFrame 6) (byteAt validFrame 7),
       be16 (byteAt validFrame 8) (byteAt validFrame 9),
       be16 (byteAt validFrame 10) (byteAt validFrame 11),
       be16 (byteAt validFrame 12) (byteAt validFrame 13),
       be16 (byteAt validFrame 14) (byteAt validFrame 15),
       be16 (byteAt validFrame 16) (byteAt validFrame 17),
       be16 (byteAt validFrame 18) (byteAt validFrame 19),
       be16 (byteAt validFrame 20) (byteAt validFrame 21),
       be16 (byteAt validFrame 22) (byteAt validFrame 23),
       be16 (byteAt validFrame 24) (byteAt validFrame 25),
       be16 (byteAt validFrame 26) (byteAt validFrame 27),
       be16 (byteAt validFrame 28) (byteAt validFrame 29),
       be16 (byteAt validFrame 30) (byteAt validFrame 31)⟩ :=
  ⟨⟨by decide, by decide, by decide⟩,
   from_buffer_valid_spec Unit validFrame (by decide) (by decide) (by decide)⟩

/-- C3: on every 32-byte buffer whose trailing big-endian checksum does not
equal the sum of bytes 0-29, `from_buffer` fails with `ChecksumError`; the
error carries no frame, so no partial result reaches the caller. -/
theorem from_buffer_checksum_mismatch (E : Type) (buffer : List Nat)
    (_hlen : buffer.length = 32) (_hbytes : ∀ b ∈ buffer, b < 256)
    (hsum : (buffer.take 30).sum ≠ be16 (byteAt buffer 30) (byteAt buffer 31)) :
    @from_buffer E buffer = .error .ChecksumError := by
  have hch : (decodeFields buffer).check = be16 (byteAt buffer 30) (byteAt buffer 31) := rfl
  simp only [from_buffer, OUTPUT_FRAME_SIZE, CHECKSUM_SIZE, hch]
  simp [hsum]

/-- Witness for C3 on `corruptFrame`. -/
theorem from_buffer_checksum_mismatch_witness :
    (corruptFrame.length = 32 ∧ (∀ b ∈ corruptFrame, b < 256) ∧
      (corruptFrame.take 30).sum ≠ be16 (byteAt corruptFrame 30) (byteAt corruptFrame 31)) ∧
    @from_buffer Unit corruptFrame = .error .ChecksumError :=
  ⟨⟨by decide, by decide, by decide⟩,
   from_buffer_checksum_mismatch Unit corruptFrame (by decide) (by decide) (by decide)⟩

/-- Unfolding: a leading byte other than `MN1` is discarded and scanning
continues with the rest of the stream. -/
lemma read_skip_one {E : Type} (fs : Nat) (b : Nat) (rest : List Nat) (hb : b ≠ MN1) :
    @read_from_device E fs (b :: rest) = @read_from_device E fs rest := by
  rw [read_from_device.eq_def]
  simp [hb]

/-- Unfolding: leading noise free of `MN1` bytes is discarded wholesale. -/
lemma read_skip_noise {E : Type} (fs : Nat) (noise stream : List Nat)
    (h : ∀ b ∈ noise, b ≠ MN1) :
    @read_from_device E fs (noise ++ stream) = @read_from_device E fs stream := by
  induction noise with
  | nil => rfl
  | cons n ns ih =>
    have hn : n ≠ MN1 := h n (by simp)
    rw [List.cons_append, read_skip_one fs n (ns ++ stream) hn]
    exact ih fun b hb => h b (by simp [hb])

/-- Unfolding: at a magic pair with enough body bytes behind it, the scanner
returns the frame made of the pair and the next `fs - 2` bytes. -/
lemma read_at_magic {E : Type} (fs : Nat) (body : List Nat) (h : fs - 2 ≤ body.length) :
    @read_from_device E fs (MN1 :: MN2 :: body) =
      .ok (MN1 :: MN2 :: body.take (fs - 2), body.drop (fs - 2)) := by
  rw [read_from_device.eq_def]
  simp [h]

/-- Every run of the scanner either returns a buffer headed by the magic pair
or fails with the end-of-stream read error. -/
lemma read_from_device_cases {E : Type} (fs : Nat) :
    ∀ rx : List Nat,
      (∃ t rest, @read_from_device E fs rx = .ok (MN1 :: MN2 :: t, rest)) ∨
      @read_from_device E fs rx = .error (.Read .UnexpectedEof) := by
  apply @read_from_device.induct E fs
  · exact Or.inr rfl
  · exact Or.inr (by rw [read_from_device.eq_def]; simp)
  · intro rest2 hlen
    exact Or.inl ⟨List.take (fs - 2) rest2, List.drop (fs - 2) rest2, read_at_magic fs rest2 hlen⟩
  · intro rest2 hlen
    refine Or.inr ?_
    rw [read_from_device.eq_def]
    simp [hlen]
  · intro b2 rest2 hb2 ih
    rw [show @read_from_device E fs (MN1 :: b2 :: rest2) =
      @read_from_device E fs rest2 from by rw [read_from_device.eq_def]; simp [hb2]]
    exact ih
  · intro b2 rest2 hb2 ih
    rw [read_skip_one fs b2 rest2 hb2]
    exact ih

/-- `receive_response` can only end in the end-of-stream read error, an
`IncorrectResponse`, or success. -/
lemma receive_response_cases {E : Type} (expected rx : List Nat) :
    @receive_response E expected rx = .error (.Read .UnexpectedEof) ∨
    @receive_response E expected rx = .error .IncorrectResponse ∨
    @receive_response E expected rx = .ok () := by
  unfold receive_response
  rcases read_from_device_cases RESPONSE_FRAME_SIZE rx with ⟨t, rest, h⟩ | h <;> rw [h]
  · by_cases hc : MN1 :: MN2 :: t = expected
    · exact Or.inr (Or.inr (by simp [hc]))
    · exact Or.inr (Or.inl (by simp [hc]))
  · exact Or.inl rfl

/-- `receive_response` never reports a checksum failure: it is a whole-buffer
template comparison that never computes the response's checksum field. -/
lemma receive_response_not_checksum {E : Type} (expected rx : List Nat) :
    resultIsChecksumErr (@receive_response E expected rx) = false := by
  rcases receive_response_cases expected rx with h | h | h <;> rw [h] <;> rfl

/-- `receive_response` never reports a write failure. -/
lemma receive_response_not_write {E : Type} (expected rx : List Nat) :
    resultIsWriteErr (@receive_response E expected rx) = false := by
  rcases receive_response_cases expected rx with h | h | h <;> rw [h] <;> rfl

/-- Every buffer the scanner hands over begins `0x42 0x4D`, but the source's
`PASSIVE_MODE_RESPONSE` template begins `0x42 0x42`, so validation of the
passive acknowledgement can never succeed. -/
lemma receive_passive_never_ok {E : Type} (rx : List Nat) :
    resultIsOk (@receive_response E PASSIVE_MODE_RESPONSE rx) = false := by
  unfold receive_response
  rcases read_from_device_cases RESPONSE_FRAME_SIZE rx with ⟨t, rest, h⟩ | h <;> rw [h]
  · have hne : MN1 :: MN2 :: t ≠ PASSIVE_MODE_RESPONSE := by
      simp [PASSIVE_MODE_RESPONSE, MN1, MN2]
    simp [hne, resultIsOk]
  · rfl

/-- C1: the code's passive-mode acknowledgement template is
`42 42 00 04 E1 00 01 74` (its second byte is `MN1`, not `MN2`), so when the
transport delivers the documented ack `42 4D 00 04 E1 00 01 74` after a
successful command write, `passive` fails with `IncorrectResponse`; indeed
no transport contents can make `passive` return `Ok`, because every
resynchronized response begins `42 4D`. -/
theorem passive_ack_template_bug :
    @passive Unit ⟨[0x42, 0x4D, 0x00, 0x04, 0xE1, 0x00, 0x01, 0x74], none⟩ =
      .error .IncorrectResponse ∧
    ∀ (E : Type) (u : Uart E), resultIsOk (passive u) = false := by
  refine ⟨by decide, ?_⟩
  intro E u
  rcases u with ⟨rx, we⟩
  cases we with
  | none => exact receive_passive_never_ok rx
  | some e => rfl

/-- C8: with the command write succeeding and the transport yielding the
active-mode ack `42 4D 00 04 E1 01 01 75`, `passive` fails with
`IncorrectResponse`; and `passive` can never fail with `ChecksumError`,
since response validation is a whole-buffer template comparison that never
computes the response frame's own checksum field. -/
theorem passive_wrong_ack_incorrect_response :
    @passive Unit ⟨[0x42, 0x4D, 0x00, 0x04, 0xE1, 0x01, 0x01, 0x75], none⟩ =
      .error .IncorrectResponse ∧
    ∀ (E : Type) (u : Uart E), resultIsChecksumErr (passive u) = false := by
  refine ⟨by decide, ?_⟩
  intro E u
  rcases u with ⟨rx, we⟩
  cases we with
  | none => exact receive_response_not_checksum PASSIVE_MODE_RESPONSE rx
  | some e => rfl

/-- C9: every command-sending operation (`request`, `passive`, `active`,
`sleep`, `wake`) maps a transport write failure to the generic `NoResponse`
error, discarding the write error's detail, and none of them ever returns
the `Write` error variant. -/
theorem send_ops_flatten_write_failures (E : Type) (e : E) (rx : List Nat) :
    (request ⟨rx, some e⟩ = .error .NoResponse ∧
     passive ⟨rx, some e⟩ = .error .NoResponse ∧
     active ⟨rx, some e⟩ = .error .NoResponse ∧
     sleep ⟨rx, some e⟩ = .error .NoResponse ∧
     wake ⟨rx, some e⟩ = .error .NoResponse) ∧
    ∀ u : Uart E,
      resultIsWriteErr (request u) = false ∧
      resultIsWriteErr (passive u) = false ∧
      resultIsWriteErr (active u) = false ∧
      resultIsWriteErr (sleep u) = false ∧
      resultIsWriteErr (wake u) = false := by
  refine ⟨⟨rfl, rfl, rfl, rfl, rfl⟩, ?_⟩
  intro u
  rcases u with ⟨rx2, we⟩
  cases we with
  | none =>
    exact ⟨rfl, receive_response_not_write PASSIVE_MODE_RESPONSE rx2,
      receive_response_not_write ACTIVE_MODE_RESPONSE rx2,
      receive_response_not_write SLEEP_RESPONSE rx2, rfl⟩
  | some e2 => exact ⟨rfl, rfl, rfl, rfl, rfl⟩

/-- C7: a false start — `0x42` followed by a byte other than `0x4D` — never
matches a frame at that `0x42`: both bytes are discarded and scanning
resumes with the next byte of the stream, so the rejected second byte is
never retried as a first magic byte even when it equals `0x42`. -/
theorem false_start_discards_both (E : Type) (L b : Nat) (rest : List Nat)
    (hb : b ≠ 0x4D) :
    @read_from_device E L (0x42 :: b :: rest) = @read_from_device E L rest := by
  rw [read_from_device.eq_def]
  simp [MN1, MN2, hb]

/-- Witness for C7 with the rejected second byte itself equal to `0x42`. -/
theorem false_start_discards_both_witness :
    (0x42 : Nat) ≠ 0x4D ∧
    @read_from_device Unit 8 [0x42, 0x42, 0x4D, 9, 9, 9, 9, 9, 9] =
      @read_from_device Unit 8 [0x4D, 9, 9, 9, 9, 9, 9] :=
  ⟨by decide, false_start_discards_both Unit 8 0x42 [0x4D, 9, 9, 9, 9, 9, 9] (by decide)⟩

/-- C6 counterexample: the noise `[0x42]` contains no adjacent
`0x42`-then-`0x4D` pair, yet prepending it to a well-formed 8-byte frame
makes the scanner consume the frame's own `0x42` as the second byte of a
false start and miss the frame entirely, exhausting the stream. -/
theorem resync_noise_counterexample :
    (∀ i : Nat, ¬(([0x42] : List Nat).getD i 0 = 0x42 ∧
      ([0x42] : List Nat).getD (i + 1) 0 = 0x4D)) ∧
    (8 : Nat) - 2 ≤ ([0, 0, 0, 0, 0, 0] : List Nat).length ∧
    @read_from_device Unit 8 ([0x42] ++ 0x42 :: 0x4D :: [0, 0, 0, 0, 0, 0]) =
      .error (.Read .UnexpectedEof) ∧
    @read_from_device Unit 8 ([0x42] ++ 0x42 :: 0x4D :: [0, 0, 0, 0, 0, 0]) ≠
      .ok ([0x42, 0x4D, 0, 0, 0, 0, 0, 0], []) := by
  refine ⟨?_, by decide, by decide, by decide⟩
  intro i hcon
  have h0 : ([0x42] : List Nat).getD (i + 1) 0 = 0 :=
    List.getD_eq_default _ _ (by simp)
  rw [h0] at hcon
  exact absurd hcon.2 (by decide)

/-- C6 (amended): for every target length `L` and every stream of leading
noise bytes none of which equals `0x42`, followed by `0x42`, `0x4D` and at
least `L - 2` body bytes, the scanner returns exactly the `L`-byte frame
starting at the magic pair, with the noise consumed and discarded; moreover
every run either succeeds or aborts with the `Read` error surfaced to the
caller. -/
theorem resync_skips_noise (E : Type) (L : Nat) (noise body : List Nat)
    (hnoise : ∀ b ∈ noise, b ≠ 0x42) (hbody : L - 2 ≤ body.length) :
    @read_from_device E L (noise ++ 0x42 :: 0x4D :: body) =
      .ok (0x42 :: 0x4D :: body.take (L - 2), body.drop (L - 2)) ∧
    ∀ rx : List Nat,
      (∃ out, @read_from_device E L rx = .ok out) ∨
      @read_from_device E L rx = .error (.Read .UnexpectedEof) := by
  constructor
  · exact (read_skip_noise L noise (0x42 :: 0x4D :: body) hnoise).trans
      (read_at_magic L body hbody)
  · intro rx
    rcases read_from_device_cases L rx with ⟨t, rest, h⟩ | h
    · exact Or.inl ⟨_, h⟩
    · exact Or.inr h

/-- Witness for C6 (amended) on two noise bytes and a 6-byte body. -/
theorem resync_skips_noise_witness :
    ((∀ b ∈ ([0x10, 0x20] : List Nat), b ≠ 0x42) ∧
      (8 : Nat) - 2 ≤ ([1, 2, 3, 4, 5, 6] : List Nat).length) ∧
    (@read_from_device Unit 8 ([0x10, 0x20] ++ 0x42 :: 0x4D :: [1, 2, 3, 4, 5, 6]) =
      .ok (0x42 :: 0x4D :: ([1, 2, 3, 4, 5, 6] : List Nat).take (8 - 2),
        ([1, 2, 3, 4, 5, 6] : List Nat).drop (8 - 2)) ∧
    ∀ rx : List Nat,
      (∃ out, @read_from_device Unit 8 rx = .ok out) ∨
      @read_from_device Unit 8 rx = .error (.Read .UnexpectedEof)) :=
  ⟨⟨by decide, by decide⟩,
   resync_skips_noise Unit 8 [0x10, 0x20] [1, 2, 3, 4, 5, 6] (by decide) (by decide)⟩

/-- C10: every buffer a successful resynchronizing read returns begins with
`0x42, 0x4D`, whatever the stream held; consequently every `OutputFrame`
successfully produced by `read` has `start1 = 0x42` and `start2 = 0x4D`,
even though the decoder never re-verifies the magic bytes. -/
theorem read_frames_start_with_magic :
    (∀ (E : Type) (L : Nat) (rx buf rest : List Nat),
      @read_from_device E L rx = .ok (buf, rest) → buf.take 2 = [0x42, 0x4D]) ∧
    (∀ (E : Type) (rx rest : List Nat) (frame : OutputFrame),
      @read E rx = .ok (frame, rest) →
        frame.start1 = 0x42 ∧ frame.start2 = 0x4D) := by
  constructor
  · intro E L rx buf rest h
    rcases read_from_device_cases L rx with ⟨t, r2, hs⟩ | hs
    · rw [hs] at h
      injection h with h1
      injection h1 with hbuf hrest
      subst hbuf
      simp [MN1, MN2]
    · rw [hs] at h
      exact absurd h (by simp)
  · intro E rx rest frame h
    unfold read at h
    rcases read_from_device_cases OUTPUT_FRAME_SIZE rx with ⟨t, r2, hs⟩ | hs <;>
      rw [hs] at h <;> dsimp only at h
    · rcases hfb : @from_buffer E (MN1 :: MN2 :: t) with e | f <;>
        rw [hfb] at h <;> dsimp only at h
      · exact absurd h (by simp)
      · injection h with h1
        injection h1 with hframe hrest
        subst hframe
        rw [from_buffer_ok_eq (MN1 :: MN2 :: t) f hfb]
        exact ⟨rfl, rfl⟩
    · exact absurd h (by simp)

/-- Witness for C10 on a valid 32-byte frame delivered with no leading
noise. -/
theorem read_frames_start_with_magic_witness :
    (@read_from_device Unit 32 validFrame = .ok (validFrame, []) ∧
      validFrame.take 2 = [0x42, 0x4D]) ∧
    (@read Unit validFrame = .ok (decodeFields validFrame, []) ∧
      (decodeFields validFrame).start1 = 0x42 ∧
      (decodeFields validFrame).start2 = 0x4D) :=
  ⟨⟨by decide, read_frames_start_with_magic.1 Unit 32 validFrame validFrame [] (by decide)⟩,
   ⟨by decide, read_frames_start_with_magic.2 Unit validFrame [] (decodeFields validFrame) (by decide)⟩⟩

end Pms
